import Mathlib

/-!
# Verification of the DLMS/COSEM common-data-type (CDT) codec

Shallow embedding of `src/DLMS_SPODES/types/common_data_types.py`:
byte strings are `List Nat` (each entry a byte value 0..255), fallible
Python code returns `Option`/`Except`, and the class-per-type design is
embedded one definition per method actually exercised by the claims.
-/

set_option maxRecDepth 100000

namespace DlmsSpodes

/-- Decidable equality for `Except`, used to settle closed statements about
fallible operations by evaluation. -/
instance {ε α : Type} [DecidableEq ε] [DecidableEq α] : DecidableEq (Except ε α) := fun a b =>
  match a, b with
  | .error x, .error y =>
    if h : x = y then .isTrue (by rw [h]) else .isFalse (fun hc => by cases hc; exact h rfl)
  | .ok x, .ok y =>
    if h : x = y then .isTrue (by rw [h]) else .isFalse (fun hc => by cases hc; exact h rfl)
  | .error _, .ok _ => .isFalse (fun hc => by cases hc)
  | .ok _, .error _ => .isFalse (fun hc => by cases hc)

/-! ## Length codec

`encode_length` and `get_length_and_pdu` from `common_data_types.py`
(lines 123-152). -/

/-- Big-endian bytes of `n`, exactly `k` octets (`int.to_bytes(k, "big")`,
truncating like the arithmetic does when `n >= 256^k`). -/
def toBytesBE : Nat → Nat → List Nat
  | 0, _ => []
  | k + 1, n => n / 256 ^ k % 256 :: toBytesBE k n

/-- `int.from_bytes(bs, "big")`: the empty list gives 0. -/
def fromBytesBE (l : List Nat) : Nat :=
  l.foldl (fun a b => a * 256 + b) 0

/-- `encode_length` (`common_data_types.py:123`).  Branches exactly as the
source: `< 0x80` one byte; `< 0x100` as `0x81` + 1 byte (`pack("BB", ...)`);
`< 0x10000` as `0x82` + 2 bytes (`pack(">BH", ...)`); `< 0x1_00_00_00_00`
as `0x84` + 4 bytes (`pack(">BL", ...)`); otherwise
`amount = int(log(length, 256)) + 1` — the exact value of that float
expression is `Nat.log 256 length` away from float rounding — followed by
`amount` big-endian bytes. -/
def encode_length (length : Nat) : List Nat :=
  if length < 0x80 then [length]
  else if length < 0x100 then [0x81, length]
  else if length < 0x10000 then [0x82, length / 256, length % 256]
  else if length < 0x100000000 then
    [0x84, length / 16777216, length / 65536 % 256, length / 256 % 256, length % 256]
  else
    let amount := Nat.log 256 length + 1
    (0x80 + amount) :: toBytesBE amount length

/-- `get_length_and_pdu` (`common_data_types.py:138`).  `none` models the
`ValueError('Value is empty')` raised when `input_pdu[0]` does not exist.
For a first byte `b` with the high bit set (`b & 0x80`, equivalently
`0x80 <= b` for a byte), `content_start = 1 + (b - 0x80)` and the length
is `int.from_bytes(input_pdu[1:content_start], 'big')` — Python slicing
silently truncates, and `from_bytes` of the short slice is still computed. -/
def get_length_and_pdu (input_pdu : List Nat) : Option (Nat × List Nat) :=
  match input_pdu with
  | [] => none
  | define_length :: rest =>
    if 0x80 ≤ define_length then
      let k := define_length - 0x80
      some (fromBytesBE (rest.take k), rest.drop k)
    else
      some (define_length, rest)

/-! ## Tag registry

The module-level `__types` dictionary (`common_data_types.py:2279-2302`)
and the per-class `TAG` declarations. -/

/-- The concrete CDT classes of the module. -/
inductive TypeId where
  | nullData | array | structure_ | boolean | bitString
  | doubleLong | doubleLongUnsigned | octetString | visibleString
  | utf8String | bcd | integer | long | unsigned | longUnsigned
  | compactArray | long64 | long64Unsigned | enum | float32 | float64
  | dateTime | date | time
deriving DecidableEq, Repr

/-- The per-class `TAG` declarations (e.g. `Long64.TAG = TAG(b'\x14')`,
`Date.TAG = TAG(b'\x1a')`), as written on each class in the source. -/
def TAG_of : TypeId → Nat
  | .nullData => 0x00
  | .array => 0x01
  | .structure_ => 0x02
  | .boolean => 0x03
  | .bitString => 0x04
  | .doubleLong => 0x05
  | .doubleLongUnsigned => 0x06
  | .octetString => 0x09
  | .visibleString => 0x0A
  | .utf8String => 0x0C
  | .bcd => 0x0D
  | .integer => 0x0F
  | .long => 0x10
  | .unsigned => 0x11
  | .longUnsigned => 0x12
  | .compactArray => 0x13
  | .long64 => 0x14
  | .long64Unsigned => 0x15
  | .enum => 0x16
  | .float32 => 0x17
  | .float64 => 0x18
  | .dateTime => 0x19
  | .date => 0x1A
  | .time => 0x1B

/-- `get_common_data_type_from` backed by the `__types` dictionary
(`common_data_types.py:2279`): `none` models the `ValueError` raised on a
`KeyError`.  The keys are transcribed from the source dict, including
`b'\x13': Long64`, `b'\x14': Long64Unsigned`, `b'\x20': Date` and
`b'\x21': Time`. -/
def get_common_data_type_from (tag : Nat) : Option TypeId :=
  match tag with
  | 0x00 => some .nullData
  | 0x01 => some .array
  | 0x02 => some .structure_
  | 0x03 => some .boolean
  | 0x04 => some .bitString
  | 0x05 => some .doubleLong
  | 0x06 => some .doubleLongUnsigned
  | 0x09 => some .octetString
  | 0x0C => some .utf8String
  | 0x0D => some .bcd
  | 0x0F => some .integer
  | 0x10 => some .long
  | 0x11 => some .unsigned
  | 0x12 => some .longUnsigned
  | 0x13 => some .long64
  | 0x14 => some .long64Unsigned
  | 0x16 => some .enum
  | 0x17 => some .float32
  | 0x18 => some .float64
  | 0x19 => some .dateTime
  | 0x20 => some .date
  | 0x21 => some .time
  | _ => none

/-! ## Boolean (`common_data_types.py:1446-1503`) -/

namespace Boolean

/-- `Boolean.from_int`: `b'\x00' if value == 0 else b'\x01'`. -/
def from_int (value : Nat) : List Nat :=
  if value = 0 then [0x00] else [0x01]

/-- `Boolean.from_bytes` (full encoding receiver, `common_data_types.py:1465`):
rejects an empty input and a lone tag byte, checks the tag `0x03`, then
normalizes the first payload byte through `from_int` — any trailing bytes
are ignored.  `Except.error` models the raised `ValueError`. -/
def from_bytes (encoding : List Nat) : Except Unit (List Nat) :=
  match encoding with
  | [] => .error ()
  | [_] => .error ()
  | tag :: b :: _ => if tag = 0x03 then .ok (from_int b) else .error ()

/-- `Boolean.encoding`: `self.TAG + self.contents`. -/
def encoding (contents : List Nat) : List Nat :=
  0x03 :: contents

/-- `Boolean.__bool__`: `False if self.contents == b'\x00' else True`. -/
def toBool (contents : List Nat) : Bool :=
  contents ≠ [0x00]

/-- Python's `str.title()`: the first character of every alphabetic run is
uppercased, the rest lowercased (`Char.toUpper`/`Char.toLower` cover the
ASCII alphabet, which is all the constructor's literals use). -/
def pyTitle (s : String) : String :=
  String.mk (go s.data false)
where
  go : List Char → Bool → List Char
    | [], _ => []
    | c :: cs, insideWord =>
      if c.isAlpha then
        (if insideWord then c.toLower else c.toUpper) :: go cs true
      else
        c :: go cs false

/-- Python `big.startswith(small)`. -/
def pyStartswith (big small : String) : Bool :=
  small.data.isPrefixOf big.data

/-- `Boolean.from_str` (`common_data_types.py:1485`).  The source is an
`if`/`elif` chain with **no** `else`: a string matching neither chain falls
off the end of the function, which in Python returns `None` — modelled by
`none`.  The constructor then stores that `None` into `self.contents`. -/
def from_str (value : String) : Option (List Nat) :=
  if value = "0" ∨ pyStartswith "False" (pyTitle value) ∨ pyStartswith "Ложь" (pyTitle value) ∨
      pyStartswith "No" (pyTitle value) ∨ pyStartswith "Нет" (pyTitle value) then
    some [0x00]
  else if value = "1" ∨ pyStartswith "True" (pyTitle value) ∨ pyStartswith "Правда" (pyTitle value) ∨
      pyStartswith "Yes" (pyTitle value) ∨ pyStartswith "Да" (pyTitle value) then
    some [0x01]
  else
    none

/-- `Boolean.__init__`, string branch: `self.contents = self.from_str(value)`.
The constructor itself never raises here; when `from_str` returns `None`
the object is left with `contents = None` — a successfully constructed
value whose contents is not a byte string. -/
def init_str (value : String) : Except Unit (Option (List Nat)) :=
  .ok (from_str value)

end Boolean

/-! ## Bcd (`common_data_types.py:1754-1808`) -/

namespace Bcd

/-- `Bcd.contents_length` property: always 1. -/
def contents_length : Nat := 1

/-- `Bcd.from_bytes` (`common_data_types.py:1768`): tag must be `0x0D` and at
least `contents_length` bytes must follow; contents is the first byte. -/
def from_bytes (encoding : List Nat) : Except Unit (List Nat) :=
  match encoding with
  | [] => .error ()
  | tag :: length_and_contents =>
    if tag = 0x0D ∧ contents_length ≤ length_and_contents.length then
      .ok (length_and_contents.take contents_length)
    else
      .error ()

/-- `Bcd.from_int`: `value.to_bytes(1, 'little')` — raises (modelled
`.error`) unless `0 <= value <= 255`. -/
def from_int (value : Int) : Except Unit (List Nat) :=
  if 0 ≤ value ∧ value < 256 then .ok [value.toNat] else .error ()

/-- Inputs of `Bcd.__init__` covered by the embedding. -/
inductive Input where
  | bytes (v : List Nat)
  | int (v : Int)
deriving DecidableEq, Repr

/-- `Bcd.__init__` (`common_data_types.py:1758`).  The result is the state of
`self.contents` after construction: `some bs` when a byte string was
assigned, `none` when it was never assigned.  The `None`-input case of the
source reads `case None: bytes(self.contents_length)` — the byte string is
computed and **discarded**, so `self.contents` is never set. -/
def init : Option Input → Except Unit (Option (List Nat))
  | none => .ok none
  | some (.bytes v) => (from_bytes v).map some
  | some (.int v) => (from_int v).map some

end Bcd

/-! ## Float32 (`common_data_types.py:611-679`, `1951-1954`) -/

/-- Python exception kinds distinguished where a claim needs them. -/
inductive PyErr where
  | typeError
  | valueError
deriving DecidableEq, Repr

namespace Float32

/-- `len(self)` for a `Float32` instance: neither `Float` nor any class in
`Float32`'s method-resolution order (`Float`, `SimpleDataType`,
`CommonDataType`) defines `__len__`, so the call raises `TypeError` —
modelled as `none`. -/
def pyLen : Option Nat := none

/-- `Float32.encoding`: `self.TAG + self.contents` with `TAG = b'\x17'`. -/
def encoding (contents : List Nat) : List Nat :=
  0x17 :: contents

/-- `Float.__init__`, `bytes` branch (`common_data_types.py:617-623`): the
match subject is `(encoding[:1], len(self))`, so `len(self)` is evaluated
before any case is tried; `pyLen = none` makes every call raise
`TypeError`.  The would-be decode under a defined length is kept for
reference. -/
def init_bytes (encoding : List Nat) : Except PyErr (List Nat) :=
  match pyLen with
  | none => .error .typeError
  | some l =>
    match encoding with
    | tag :: length_and_contents =>
      if tag = 0x17 ∧ l ≤ length_and_contents.length then
        .ok (length_and_contents.take l)
      else
        .error .valueError
    | [] => .error .valueError

end Float32

/-! ## Unsigned (`Digital` with `TAG = 0x11`, `LENGTH = 1`, unsigned;
`common_data_types.py:442-558`, `1825-1829`) -/

namespace Unsigned

/-- `Digital.LENGTH` for `Unsigned`. -/
def LENGTH : Nat := 1

/-- `Digital.from_int` for `Unsigned`: `int(value).to_bytes(1, "big",
signed=False)`, whose `OverflowError` is re-raised as `ValueError` unless
`0 <= value <= 255`. -/
def from_int (value : Int) : Except Unit (List Nat) :=
  if 0 ≤ value ∧ value < 256 then .ok [value.toNat] else .error ()

/-- `Digital.__init__`, `bytes` branch, for `Unsigned`
(`common_data_types.py:454-460`): the tag must be `0x11` and at least
`LENGTH` bytes must follow; contents is the first `LENGTH` bytes.
(`Unsigned` declares no `MIN`/`MAX`/`VALUE`, so `validate` passes.) -/
def init_bytes (value : List Nat) : Except Unit (List Nat) :=
  match value with
  | [] => .error ()
  | tag :: length_and_contents =>
    if tag = 0x11 then
      if LENGTH ≤ length_and_contents.length then
        .ok (length_and_contents.take LENGTH)
      else
        .error ()
    else
      .error ()

/-- `Digital.encoding` for `Unsigned`: `self.TAG + self.contents`. -/
def encoding (contents : List Nat) : List Nat :=
  0x11 :: contents

end Unsigned

/-! ## `SimpleDataType.set` with callbacks
(`common_data_types.py:332-339`, `243-249`) -/

/-- Observable events of one `set` call, in occurrence order. -/
inductive Ev where
  | preset
  | mutate
  | postSet
deriving DecidableEq, Repr

/-- The per-instance state a `SimpleDataType` carries: its `contents` and
the optionally registered callbacks (identified by a number — the codec
never inspects them, only calls them). -/
structure SimpleState where
  contents : List Nat
  cb_preset : Option Nat
  cb_post_set : Option Nat
deriving DecidableEq, Repr

/-- `CommonDataType.register_cb_post_set`: stores the callback (at most one,
overwriting). -/
def register_cb_post_set (st : SimpleState) (func : Nat) : SimpleState :=
  { st with cb_post_set := some func }

/-- `CommonDataType.register_cb_preset`. -/
def register_cb_preset (st : SimpleState) (func : Nat) : SimpleState :=
  { st with cb_preset := some func }

/-- The outcome of a `set` call: post-call state, fired events in order, and
whether the call raised. -/
structure SetOutcome where
  state : SimpleState
  events : List Ev
  raised : Bool
deriving DecidableEq, Repr

/-- `SimpleDataType.set` (`common_data_types.py:332`): first
`new_value = self._new_instance(value)` (the constructor, which may raise —
before any mutation or callback), then `cb_preset(new_value)` if registered,
then `self.contents = new_value.contents`, then `cb_post_set()` if
registered.  Neither callback is deleted.  `ctor` is the type's
constructor on the host-integer input branch. -/
def SimpleDataType.set (ctor : Int → Except Unit (List Nat))
    (st : SimpleState) (value : Int) : SetOutcome :=
  match ctor value with
  | .error _ => { state := st, events := [], raised := true }
  | .ok newContents =>
    { state := { st with contents := newContents }
      events := (if st.cb_preset.isSome then [Ev.preset] else []) ++ [Ev.mutate] ++
        (if st.cb_post_set.isSome then [Ev.postSet] else [])
      raised := false }

/-! ## Array (`common_data_types.py:1095-1187`), element type `Unsigned` -/

/-- The state of an `Array` instance whose `TYPE` is `Unsigned`: the
`contents` of its elements, in order. -/
structure ArrayState where
  values : List (List Nat)
deriving DecidableEq, Repr

/-- The element-decode loop of `Array.__init__` (`common_data_types.py:1117`):
`length` repetitions of `get_instance_and_pdu(self.TYPE, pdu)`, raising when
`pdu` is exhausted early; each step consumes `len(instance.encoding)`
bytes. -/
def Array.decode_elements : Nat → List Nat → Except Unit (List (List Nat))
  | 0, _ => .ok []
  | Nat.succ n, pdu =>
    if pdu = [] then
      .error ()
    else
      match Unsigned.init_bytes pdu with
      | .error e => .error e
      | .ok contents =>
        match Array.decode_elements n (pdu.drop (Unsigned.encoding contents).length) with
        | .error e => .error e
        | .ok rest => .ok (contents :: rest)

/-- The inputs of `Array.__init__` covered by the embedding. -/
inductive ArrayInput where
  | bytes (v : List Nat)
  | list (v : List (List Nat))
  | noneInput
deriving DecidableEq, Repr

/-- `Array.__init__` (`common_data_types.py:1104`) with `type_ = Unsigned`:
a `list` is adopted as the values, `bytes` must start with tag `0x01`
followed by a count header (`get_length_and_pdu`, whose `ValueError` on an
empty tail propagates) and that many element encodings, `None` builds an
empty array. -/
def Array.init : ArrayInput → Except Unit (List (List Nat))
  | .list v => .ok v
  | .bytes v =>
    match v with
    | [] => .error ()
    | tag :: length_and_contents =>
      if tag = 0x01 then
        match get_length_and_pdu length_and_contents with
        | none => .error ()
        | some (length, pdu) => Array.decode_elements length pdu
      else
        .error ()
  | .noneInput => .ok []

/-- The outcome of `Array.set`. -/
structure ArraySetOutcome where
  values : List (List Nat)
  raised : Bool
deriving DecidableEq, Repr

/-- `Array.set` (`common_data_types.py:1175`): the body starts with
`self.clear()`, which empties `self.values` **before** the replacement
array is constructed or validated; only then is `Array(value, type_=...)`
built and its elements appended (for `TYPE = Unsigned`, re-constructing
each element from an element copies its contents and `validate` passes).
A constructor failure therefore leaves the array empty. -/
def Array.set (st : ArrayState) (value : ArrayInput) : ArraySetOutcome :=
  let cleared : List (List Nat) := []
  match Array.init value with
  | .error _ => { values := cleared, raised := true }
  | .ok newValues => { values := newValues, raised := false }

/-! ## Container encodings (`ComplexDataType`, `common_data_types.py:355-373`) -/

/-- Recursive CDT values, enough to express container encodings: `Unsigned`
and `OctetString` leaves, `Structure` and `Array` containers. -/
inductive Val where
  | unsigned (contents : List Nat)
  | octetString (contents : List Nat)
  | struct (values : List Val)
  | arr (values : List Val)
deriving Repr

mutual

/-- `encoding` of a value.  Scalars: `Digital.encoding = TAG + contents`
and `_String.encoding = TAG + encode_length(len(contents)) + contents`.
Containers (`ComplexDataType.encoding`, `common_data_types.py:367-370`):
`self.TAG + encode_length(len(self.values)) + self.contents`, where
`contents` is the concatenation of the children's encodings
(`common_data_types.py:358-361`); `Structure` (`TAG = 0x02`) does not
override `encoding`. -/
def Val.encoding : Val → List Nat
  | .unsigned contents => 0x11 :: contents
  | .octetString contents => 0x09 :: (encode_length contents.length ++ contents)
  | .struct values => 0x02 :: (encode_length values.length ++ Val.encodingList values)
  | .arr values => 0x01 :: (encode_length values.length ++ Val.encodingList values)

/-- `ComplexDataType.contents`: `b''.join(el.encoding for el in values)`. -/
def Val.encodingList : List Val → List Nat
  | [] => []
  | v :: vs => v.encoding ++ Val.encodingList vs

end

/-! ## Python `datetime` model

The nearest-occurrence search manipulates aware `datetime.datetime` values
via `replace`, comparison, `weekday()` and `date()` equality; this section
embeds exactly that surface (proleptic Gregorian calendar, `tzinfo`
reduced to its offset in minutes). -/

/-- An aware `datetime.datetime`: calendar fields plus the timezone offset
in minutes (`datetime.timezone.utc` is offset 0). -/
structure PyDateTime where
  year : Nat
  month : Nat
  day : Nat
  hour : Nat
  minute : Nat
  second : Nat
  microsecond : Nat
  offset : Int
deriving DecidableEq, Repr

/-- Gregorian leap year. -/
def isLeap (y : Nat) : Bool :=
  y % 4 == 0 && (y % 100 != 0 || y % 400 == 0)

/-- Days in a month (0 for an invalid month number). -/
def daysInMonth (y m : Nat) : Nat :=
  match m with
  | 1 => 31
  | 2 => if isLeap y then 29 else 28
  | 3 => 31
  | 4 => 30
  | 5 => 31
  | 6 => 30
  | 7 => 31
  | 8 => 31
  | 9 => 30
  | 10 => 31
  | 11 => 30
  | 12 => 31
  | _ => 0

/-- Days in all years before `y` (proleptic Gregorian, year 1 first). -/
def daysBeforeYear (y : Nat) : Nat :=
  (y - 1) * 365 + (y - 1) / 4 - (y - 1) / 100 + (y - 1) / 400

/-- Days in the months of year `y` strictly before month `m`. -/
def daysBeforeMonth (y : Nat) : Nat → Nat
  | 0 => 0
  | 1 => 0
  | Nat.succ m => daysBeforeMonth y m + daysInMonth y m

/-- `date.toordinal()`: day 1 is 0001-01-01. -/
def toOrdinal (d : PyDateTime) : Nat :=
  daysBeforeYear d.year + daysBeforeMonth d.year d.month + d.day

/-- `datetime.weekday()`: 0 = Monday; 0001-01-01 is a Monday. -/
def pyWeekday (d : PyDateTime) : Nat :=
  (toOrdinal d + 6) % 7

/-- The instant of an aware datetime, in microseconds from the epoch of the
proleptic calendar (aware comparison subtracts the UTC offset). -/
def toMicro (d : PyDateTime) : Int :=
  (((toOrdinal d : Int) * 86400 + (d.hour : Int) * 3600 + (d.minute : Int) * 60 +
    (d.second : Int) - d.offset * 60) * 1000000) + (d.microsecond : Int)

/-- `a < b` on aware datetimes. -/
def pyLt (a b : PyDateTime) : Bool :=
  toMicro a < toMicro b

/-- `a.date() == b.date()`: naive calendar-field equality. -/
def sameDate (a b : PyDateTime) : Bool :=
  a.year == b.year && a.month == b.month && a.day == b.day

/-- The validation `datetime.replace` (re-)runs on the full field set. -/
def pyValid (d : PyDateTime) : Bool :=
  1 ≤ d.year && d.year ≤ 9999 && 1 ≤ d.month && d.month ≤ 12 &&
  1 ≤ d.day && d.day ≤ daysInMonth d.year d.month &&
  d.hour ≤ 23 && d.minute ≤ 59 && d.second ≤ 59 && d.microsecond ≤ 999999

/-- `d.replace(year=y)`: raises `ValueError` (modelled `.error`) when the
resulting combination is invalid. -/
def replaceYear (d : PyDateTime) (y : Nat) : Except Unit PyDateTime :=
  let r := { d with year := y }
  if pyValid r then .ok r else .error ()

/-- `d.replace(month=m)`. -/
def replaceMonth (d : PyDateTime) (m : Nat) : Except Unit PyDateTime :=
  let r := { d with month := m }
  if pyValid r then .ok r else .error ()

/-- `d.replace(day=v)`. -/
def replaceDay (d : PyDateTime) (v : Nat) : Except Unit PyDateTime :=
  let r := { d with day := v }
  if pyValid r then .ok r else .error ()

/-- `d.replace(hour=v)`. -/
def replaceHour (d : PyDateTime) (v : Nat) : Except Unit PyDateTime :=
  let r := { d with hour := v }
  if pyValid r then .ok r else .error ()

/-- `d.replace(minute=v)`. -/
def replaceMinute (d : PyDateTime) (v : Nat) : Except Unit PyDateTime :=
  let r := { d with minute := v }
  if pyValid r then .ok r else .error ()

/-- `d.replace(second=v)`. -/
def replaceSecond (d : PyDateTime) (v : Nat) : Except Unit PyDateTime :=
  let r := { d with second := v }
  if pyValid r then .ok r else .error ()

/-- `d.replace(microsecond=v)`. -/
def replaceMicrosecond (d : PyDateTime) (v : Nat) : Except Unit PyDateTime :=
  let r := { d with microsecond := v }
  if pyValid r then .ok r else .error ()

/-- Python `range(a, b)` (step 1): `[a, a+1, ..., b-1]`. -/
def rangeAsc (a b : Nat) : List Nat :=
  List.range' a (b - a)

/-- Python `range(a, stop, -1)` for `stop >= 0`:
`[a, a-1, ..., stop+1]`. -/
def rangeDescTo (a stop : Nat) : List Nat :=
  (List.range' (stop + 1) (a - stop)).reverse

/-- Python `range(a, -1, -1)`: `[a, a-1, ..., 0]`. -/
def rangeDescNeg (a : Nat) : List Nat :=
  (List.range (a + 1)).reverse

/-- Python `range(a, -1, -10000)`: `[a, a-10000, ...]` down to the last
nonnegative value. -/
def rangeDescMicro (a : Nat) : List Nat :=
  (List.range (a / 10000 + 1)).map (fun i => a - 10000 * i)

/-! ## DLMS `DateTime` (`common_data_types.py:1963-2177`) -/

/-- A `DateTime` value: its 12-byte `contents`
(year-hi, year-lo, month, day, weekday, hour, minute, second, hundredths,
deviation-hi, deviation-lo, clock-status). -/
structure CDTDateTime where
  contents : List Nat
deriving DecidableEq, Repr

namespace CDTDateTime

/-- `__Date.year`: `unpack(">H", contents[:2])[0]`. -/
def year (self : CDTDateTime) : Nat :=
  256 * self.contents.getD 0 0 + self.contents.getD 1 0

/-- `__Date.month`: `contents[2]`. -/
def month (self : CDTDateTime) : Nat :=
  self.contents.getD 2 0

/-- `__Date.day`: `contents[3]`. -/
def day (self : CDTDateTime) : Nat :=
  self.contents.getD 3 0

/-- `__Date.weekday`: `contents[4]`. -/
def weekday (self : CDTDateTime) : Nat :=
  self.contents.getD 4 0

/-- `__Time.hour` with the DateTime offset 5: `contents[5]`. -/
def hour (self : CDTDateTime) : Nat :=
  self.contents.getD 5 0

/-- `__Time.minute`: `contents[6]`. -/
def minute (self : CDTDateTime) : Nat :=
  self.contents.getD 6 0

/-- `__Time.second`: `contents[7]`. -/
def second (self : CDTDateTime) : Nat :=
  self.contents.getD 7 0

/-- `__Time.hundredths`: `contents[8]`. -/
def hundredths (self : CDTDateTime) : Nat :=
  self.contents.getD 8 0

/-- `DateTime.deviation`: `unpack(">h", contents[9:11])[0]` — a signed
16-bit big-endian integer. -/
def deviation (self : CDTDateTime) : Int :=
  let u := 256 * self.contents.getD 9 0 + self.contents.getD 10 0
  if u < 0x8000 then (u : Int) else (u : Int) - 0x10000

/-- `DateTime.to_datetime` (`common_data_types.py:2035`): wildcard fields
fall back to `datetime.MINYEAR` / 1 / 0; deviation `-0x8000` gives
`datetime.timezone.utc` (offset 0), otherwise a fixed offset of
`deviation` minutes.  The `datetime.datetime(...)` constructor validates —
modelled by the same `pyValid` check. -/
def to_datetime (self : CDTDateTime) : Except Unit PyDateTime :=
  let r : PyDateTime :=
    { year := if self.year = 0xffff then 1 else self.year
      month := if self.month = 0xff ∨ self.month = 0xfe ∨ self.month = 0xfd then 1 else self.month
      day := if self.day = 0xff ∨ self.day = 0xfe ∨ self.day = 0xfd then 1 else self.day
      hour := if self.hour = 0xff then 0 else self.hour
      minute := if self.minute = 0xff then 0 else self.minute
      second := if self.second = 0xff then 0 else self.second
      microsecond := if self.hundredths = 0xff then 0 else self.hundredths * 10000
      offset := if self.deviation = -0x8000 then 0 else self.deviation }
  if pyValid r then .ok r else .error ()

/-- Inner `day` loop of `get_right_nearest_date`
(`common_data_types.py:2108-2118`): `res = res.replace(day=day)`, skip while
`res < point`, then skip while the weekday guard holds.  The source guard
is `self.weekday is not None and self.weekday != (res.weekday() + 1)`;
`self.weekday` is a byte (never `None`), so the first conjunct is always
true and only the inequality remains.  Returns the found value (if any)
and the threaded `res`. -/
def rightDateDayLoop (self : CDTDateTime) (point : PyDateTime) :
    List Nat → PyDateTime → Except Unit (Option PyDateTime × PyDateTime)
  | [], res => .ok (none, res)
  | d :: ds, res =>
    match replaceDay res d with
    | .error e => .error e
    | .ok res =>
      if pyLt res point then
        rightDateDayLoop self point ds res
      else if self.weekday != pyWeekday res + 1 then
        rightDateDayLoop self point ds res
      else
        .ok (some res, res)

/-- `month` loop of `get_right_nearest_date`: after each month's day loop,
`days` is reassigned to `range(0, 32)` when the day is a wildcard, else to
`(self.day,)` (`common_data_types.py:2119`).  Returns (found, final
`days`, threaded `res`). -/
def rightDateMonthLoop (self : CDTDateTime) (point : PyDateTime) :
    List Nat → List Nat → PyDateTime →
    Except Unit (Option PyDateTime × List Nat × PyDateTime)
  | [], days, res => .ok (none, days, res)
  | m :: ms, days, res =>
    match replaceMonth res m with
    | .error e => .error e
    | .ok res =>
      match rightDateDayLoop self point days res with
      | .error e => .error e
      | .ok (some r, res2) => .ok (some r, days, res2)
      | .ok (none, res2) =>
        rightDateMonthLoop self point ms
          (if self.day == 0xff then rangeAsc 0 32 else [self.day]) res2

/-- `year` loop of `get_right_nearest_date`: after each year's month loop,
`months` is reassigned to `range(0, 12)` when the month is a wildcard,
else to `(self.month,)` (`common_data_types.py:2120`). -/
def rightDateYearLoop (self : CDTDateTime) (point : PyDateTime) :
    List Nat → List Nat → List Nat → PyDateTime →
    Except Unit (Option PyDateTime × PyDateTime)
  | [], _, _, res => .ok (none, res)
  | y :: ys, months, days, res =>
    match replaceYear res y with
    | .error e => .error e
    | .ok res =>
      match rightDateMonthLoop self point months days res with
      | .error e => .error e
      | .ok (some r, _, res2) => .ok (some r, res2)
      | .ok (none, days2, res2) =>
        rightDateYearLoop self point ys
          (if self.month == 0xff then rangeAsc 0 12 else [self.month]) days2 res2

/-- `DateTime.get_right_nearest_date` (`common_data_types.py:2096`):
`res = self.to_datetime()`, candidate months from `range(point.month, 12)`
(or the fixed month), days from `range(point.day, 32)`, years from
`range(point.year, datetime.MAXYEAR)` with `MAXYEAR = 9999`. -/
def get_right_nearest_date (self : CDTDateTime) (point : PyDateTime) :
    Except Unit (Option PyDateTime) :=
  match self.to_datetime with
  | .error e => .error e
  | .ok res =>
    let months := if self.month == 0xff then rangeAsc point.month 12 else [self.month]
    let days := if self.day == 0xff then rangeAsc point.day 32 else [self.day]
    let years := if self.year == 0xffff then rangeAsc point.year 9999 else [self.year]
    match rightDateYearLoop self point years months days res with
    | .error e => .error e
    | .ok (r, _) => .ok r

/-- Inner `day` loop of `get_left_nearest_date`
(`common_data_types.py:2081-2091`): skip while `res > point`, then skip
when `self.weekday != 0xff and self.weekday != (res.weekday() + 1)`. -/
def leftDateDayLoop (self : CDTDateTime) (point : PyDateTime) :
    List Nat → PyDateTime → Except Unit (Option PyDateTime × PyDateTime)
  | [], res => .ok (none, res)
  | d :: ds, res =>
    match replaceDay res d with
    | .error e => .error e
    | .ok res =>
      if pyLt point res then
        leftDateDayLoop self point ds res
      else if self.weekday != 0xff && self.weekday != pyWeekday res + 1 then
        leftDateDayLoop self point ds res
      else
        .ok (some res, res)

/-- `month` loop of `get_left_nearest_date`: `days` is reassigned to
`range(31, 0, -1)` (or `(self.day,)`) after each month
(`common_data_types.py:2092`). -/
def leftDateMonthLoop (self : CDTDateTime) (point : PyDateTime) :
    List Nat → List Nat → PyDateTime →
    Except Unit (Option PyDateTime × List Nat × PyDateTime)
  | [], days, res => .ok (none, days, res)
  | m :: ms, days, res =>
    match replaceMonth res m with
    | .error e => .error e
    | .ok res =>
      match leftDateDayLoop self point days res with
      | .error e => .error e
      | .ok (some r, res2) => .ok (some r, days, res2)
      | .ok (none, res2) =>
        leftDateMonthLoop self point ms
          (if self.day == 0xff then rangeDescTo 31 0 else [self.day]) res2

/-- `year` loop of `get_left_nearest_date`: `months` is reassigned to
`range(12, 0, -1)` (or `(self.month,)`) after each year
(`common_data_types.py:2093`). -/
def leftDateYearLoop (self : CDTDateTime) (point : PyDateTime) :
    List Nat → List Nat → List Nat → PyDateTime →
    Except Unit (Option PyDateTime × PyDateTime)
  | [], _, _, res => .ok (none, res)
  | y :: ys, months, days, res =>
    match replaceYear res y with
    | .error e => .error e
    | .ok res =>
      match leftDateMonthLoop self point months days res with
      | .error e => .error e
      | .ok (some r, _, res2) => .ok (some r, res2)
      | .ok (none, days2, res2) =>
        leftDateYearLoop self point ys
          (if self.month == 0xff then rangeDescTo 12 0 else [self.month]) days2 res2

/-- `DateTime.get_left_nearest_date` (`common_data_types.py:2069`):
months from `range(point.month, 0, -1)`, days from
`range(point.day, 0, -1)`, years from
`range(point.year, datetime.MINYEAR, -1)` with `MINYEAR = 1`. -/
def get_left_nearest_date (self : CDTDateTime) (point : PyDateTime) :
    Except Unit (Option PyDateTime) :=
  match self.to_datetime with
  | .error e => .error e
  | .ok res =>
    let months := if self.month == 0xff then rangeDescTo point.month 0 else [self.month]
    let days := if self.day == 0xff then rangeDescTo point.day 0 else [self.day]
    let years := if self.year == 0xffff then rangeDescTo point.year 1 else [self.year]
    match leftDateYearLoop self point years months days res with
    | .error e => .error e
    | .ok (r, _) => .ok r

/-- Innermost `microsecond` loop of `get_right_nearest_datetime`
(`common_data_types.py:2141-2151`): skip while `res < point`, else
return. -/
def rightDtMicroLoop (point : PyDateTime) :
    List Nat → PyDateTime → Except Unit (Option PyDateTime × PyDateTime)
  | [], res => .ok (none, res)
  | us :: usl, res =>
    match replaceMicrosecond res us with
    | .error e => .error e
    | .ok res =>
      if pyLt res point then rightDtMicroLoop point usl res else .ok (some res, res)

/-- `second` loop of `get_right_nearest_datetime`: the microsecond
candidates are recomputed per iteration from the current `res` —
`range(point.microsecond if (is_this_day and hours, minutes and seconds
match) else 0, 990000)` for a wildcard hundredths, else
`(self.hundredths * 10000,)`. -/
def rightDtSecLoop (self : CDTDateTime) (point : PyDateTime) (isThisDay : Bool) :
    List Nat → PyDateTime → Except Unit (Option PyDateTime × PyDateTime)
  | [], res => .ok (none, res)
  | s :: sl, res =>
    match replaceSecond res s with
    | .error e => .error e
    | .ok res =>
      let micros :=
        if self.hundredths == 0xff then
          rangeAsc (if isThisDay && res.hour == point.hour && res.minute == point.minute &&
            res.second == point.second then point.microsecond else 0) 990000
        else [self.hundredths * 10000]
      match rightDtMicroLoop point micros res with
      | .error e => .error e
      | .ok (some r, res2) => .ok (some r, res2)
      | .ok (none, res2) => rightDtSecLoop self point isThisDay sl res2

/-- `minute` loop of `get_right_nearest_datetime`. -/
def rightDtMinLoop (self : CDTDateTime) (point : PyDateTime) (isThisDay : Bool) :
    List Nat → PyDateTime → Except Unit (Option PyDateTime × PyDateTime)
  | [], res => .ok (none, res)
  | m :: ml, res =>
    match replaceMinute res m with
    | .error e => .error e
    | .ok res =>
      let secs :=
        if self.second == 0xff then
          rangeAsc (if isThisDay && res.hour == point.hour && res.minute == point.minute
            then point.second else 0) 60
        else [self.second]
      match rightDtSecLoop self point isThisDay secs res with
      | .error e => .error e
      | .ok (some r, res2) => .ok (some r, res2)
      | .ok (none, res2) => rightDtMinLoop self point isThisDay ml res2

/-- `hour` loop of `get_right_nearest_datetime`. -/
def rightDtHourLoop (self : CDTDateTime) (point : PyDateTime) (isThisDay : Bool) :
    List Nat → PyDateTime → Except Unit (Option PyDateTime × PyDateTime)
  | [], res => .ok (none, res)
  | h :: hl, res =>
    match replaceHour res h with
    | .error e => .error e
    | .ok res =>
      let mins :=
        if self.minute == 0xff then
          rangeAsc (if isThisDay && res.hour == point.hour then point.minute else 0) 60
        else [self.minute]
      match rightDtMinLoop self point isThisDay mins res with
      | .error e => .error e
      | .ok (some r, res2) => .ok (some r, res2)
      | .ok (none, res2) => rightDtHourLoop self point isThisDay hl res2

/-- `DateTime.get_right_nearest_datetime` (`common_data_types.py:2123`):
the date part comes from `get_right_nearest_date` (`None` propagates),
`is_this_day` compares `res.date()` with `point.date()`, and the hour
candidates are `range(point.hour if is_this_day else 0, 24)` for a
wildcard hour, else `(self.hour,)`. -/
def get_right_nearest_datetime (self : CDTDateTime) (point : PyDateTime) :
    Except Unit (Option PyDateTime) :=
  match get_right_nearest_date self point with
  | .error e => .error e
  | .ok none => .ok none
  | .ok (some res) =>
    let isThisDay := sameDate res point
    let hours :=
      if self.hour == 0xff then
        rangeAsc (if isThisDay then point.hour else 0) 24
      else [self.hour]
    match rightDtHourLoop self point isThisDay hours res with
    | .error e => .error e
    | .ok (r, _) => .ok r

/-- Innermost `microsecond` loop of `get_left_nearest_datetime`
(`common_data_types.py:2169-2176`): skip while `l_point > point`, else
return. -/
def leftDtMicroLoop (point : PyDateTime) :
    List Nat → PyDateTime → Except Unit (Option PyDateTime × PyDateTime)
  | [], res => .ok (none, res)
  | us :: usl, res =>
    match replaceMicrosecond res us with
    | .error e => .error e
    | .ok res =>
      if pyLt point res then leftDtMicroLoop point usl res else .ok (some res, res)

/-- `second` loop of `get_left_nearest_datetime`: microsecond candidates
`range(point.microsecond if ... else 990000, -1, -10000)` for a wildcard
hundredths, else `(self.hundredths * 10000,)`. -/
def leftDtSecLoop (self : CDTDateTime) (point : PyDateTime) (isThisDay : Bool) :
    List Nat → PyDateTime → Except Unit (Option PyDateTime × PyDateTime)
  | [], res => .ok (none, res)
  | s :: sl, res =>
    match replaceSecond res s with
    | .error e => .error e
    | .ok res =>
      let micros :=
        if self.hundredths == 0xff then
          rangeDescMicro (if isThisDay && res.hour == point.hour && res.minute == point.minute &&
            res.second == point.second then point.microsecond else 990000)
        else [self.hundredths * 10000]
      match leftDtMicroLoop point micros res with
      | .error e => .error e
      | .ok (some r, res2) => .ok (some r, res2)
      | .ok (none, res2) => leftDtSecLoop self point isThisDay sl res2

/-- `minute` loop of `get_left_nearest_datetime`. -/
def leftDtMinLoop (self : CDTDateTime) (point : PyDateTime) (isThisDay : Bool) :
    List Nat → PyDateTime → Except Unit (Option PyDateTime × PyDateTime)
  | [], res => .ok (none, res)
  | m :: ml, res =>
    match replaceMinute res m with
    | .error e => .error e
    | .ok res =>
      let secs :=
        if self.second == 0xff then
          rangeDescNeg (if isThisDay && res.hour == point.hour && res.minute == point.minute
            then point.second else 59)
        else [self.second]
      match leftDtSecLoop self point isThisDay secs res with
      | .error e => .error e
      | .ok (some r, res2) => .ok (some r, res2)
      | .ok (none, res2) => leftDtMinLoop self point isThisDay ml res2

/-- `hour` loop of `get_left_nearest_datetime`. -/
def leftDtHourLoop (self : CDTDateTime) (point : PyDateTime) (isThisDay : Bool) :
    List Nat → PyDateTime → Except Unit (Option PyDateTime × PyDateTime)
  | [], res => .ok (none, res)
  | h :: hl, res =>
    match replaceHour res h with
    | .error e => .error e
    | .ok res =>
      let mins :=
        if self.minute == 0xff then
          rangeDescNeg (if isThisDay && res.hour == point.hour then point.minute else 59)
        else [self.minute]
      match leftDtMinLoop self point isThisDay mins res with
      | .error e => .error e
      | .ok (some r, res2) => .ok (some r, res2)
      | .ok (none, res2) => leftDtHourLoop self point isThisDay hl res2

/-- `DateTime.get_left_nearest_datetime` (`common_data_types.py:2154`):
the date part comes from `get_left_nearest_date` (`None` propagates), and
hour candidates are `range(point.hour if is_this_day else 23, -1, -1)` for
a wildcard hour, else `(self.hour,)`. -/
def get_left_nearest_datetime (self : CDTDateTime) (point : PyDateTime) :
    Except Unit (Option PyDateTime) :=
  match get_left_nearest_date self point with
  | .error e => .error e
  | .ok none => .ok none
  | .ok (some res) =>
    let isThisDay := sameDate res point
    let hours :=
      if self.hour == 0xff then
        rangeDescNeg (if isThisDay then point.hour else 23)
      else [self.hour]
    match leftDtHourLoop self point isThisDay hours res with
    | .error e => .error e
    | .ok (r, _) => .ok r

end CDTDateTime

/-- The `DateTime` of the nearest-search scenario: hour 10 and minute 0
specified, year/month/day/weekday/second/hundredths the "not specified"
sentinels, deviation the no-timezone sentinel `0x8000`, clock status
`0xFF`. -/
def dtHourTen : CDTDateTime :=
  ⟨[0xff, 0xff, 0xff, 0xff, 0xff, 0x0a, 0x00, 0xff, 0xff, 0x80, 0x00, 0xff]⟩

/-- The reference instant 2021-05-10T00:00:00Z. -/
def pointMay10 : PyDateTime :=
  { year := 2021, month := 5, day := 10, hour := 0, minute := 0, second := 0,
    microsecond := 0, offset := 0 }

/-- The byte count `encode_length` actually emits for the long form below
2^32: 1 below 0x100, 2 below 0x10000, else 4 (there is no 3-byte branch in
the source). -/
def emittedLengthBytes (n : Nat) : Nat :=
  if n < 0x100 then 1 else if n < 0x10000 then 2 else 4

/-! ## Theorems -/

/-- Decoding inverts `encode_length` below 2^32 (helper): the long-form
header byte carries the emitted byte count, and `get_length_and_pdu`
reassembles exactly the encoded length. -/
theorem get_length_and_pdu_encode_length (n : Nat) (h : n < 0x100000000) (rest : List Nat) :
    get_length_and_pdu (encode_length n ++ rest) = some (n, rest) := by
  by_cases h1 : n < 0x80
  · rw [encode_length, if_pos h1]
    simp only [List.cons_append, List.nil_append, get_length_and_pdu]
    rw [if_neg (by omega)]
  · by_cases h2 : n < 0x100
    · rw [encode_length, if_neg h1, if_pos h2]
      simp only [List.cons_append, List.nil_append, get_length_and_pdu]
      rw [if_pos (by norm_num)]
      simp only [List.take, List.drop, fromBytesBE, List.foldl]
      norm_num
    · by_cases h3 : n < 0x10000
      · rw [encode_length, if_neg h1, if_neg h2, if_pos h3]
        simp only [List.cons_append, List.nil_append, get_length_and_pdu]
        rw [if_pos (by norm_num)]
        simp only [List.take, List.drop, fromBytesBE, List.foldl]
        norm_num
        omega
      · rw [encode_length, if_neg h1, if_neg h2, if_neg h3, if_pos h]
        simp only [List.cons_append, List.nil_append, get_length_and_pdu]
        rw [if_pos (by norm_num)]
        simp only [List.take, List.drop, fromBytesBE, List.foldl]
        norm_num
        omega

/-- **C2**.  The claim says every tag of the registry contract — in
particular 0x0A, 0x14, 0x15, 0x1A, 0x1B — looks up to a type whose
declared `TAG` is that same byte.  Evaluating the source's `__types`
dictionary: 0x0A (VisibleString), 0x15 (Long64Unsigned's declared tag),
0x1A (Date's declared tag) and 0x1B (Time's declared tag) are absent and
raise the unknown-type error, while 0x13/0x14/0x20/0x21 look up classes
whose declared `TAG`s are 0x14/0x15/0x1A/0x1B respectively — so the
registry contradicts the tag checks in those classes' own constructors. -/
theorem C2_registry_contradicts_declared_tags :
    get_common_data_type_from 0x0A = none ∧
    get_common_data_type_from 0x15 = none ∧
    get_common_data_type_from 0x1A = none ∧
    get_common_data_type_from 0x1B = none ∧
    get_common_data_type_from 0x14 = some TypeId.long64Unsigned ∧
    TAG_of TypeId.long64Unsigned = 0x15 ∧
    get_common_data_type_from 0x13 = some TypeId.long64 ∧
    TAG_of TypeId.long64 = 0x14 ∧
    TAG_of TypeId.compactArray = 0x13 ∧
    get_common_data_type_from 0x20 = some TypeId.date ∧
    TAG_of TypeId.date = 0x1A ∧
    get_common_data_type_from 0x21 = some TypeId.time ∧
    TAG_of TypeId.time = 0x1B ∧
    TAG_of TypeId.visibleString = 0x0A := by
  decide

/-- **C3**.  The round-trip law fails for `Float32`: a validly constructed
value (contents `3F800000`, the float 1.0, obtained through the `bytearray`
branch) has encoding `17 3F 80 00 00`, but constructing a `Float32` from
that very encoding raises `TypeError`, because the `bytes` branch
evaluates `len(self)` and no class in `Float32`'s method-resolution order
defines `__len__`.  `decode(v.encoding) == v` therefore never holds for
`Float32`. -/
theorem C3_float32_roundtrip_raises :
    Float32.encoding [0x3F, 0x80, 0x00, 0x00] = [0x17, 0x3F, 0x80, 0x00, 0x00] ∧
    Float32.init_bytes (Float32.encoding [0x3F, 0x80, 0x00, 0x00]) = .error PyErr.typeError := by
  decide

/-- **C4** — counterexample.  An `Array` of one `Unsigned` element with
contents `0x01`, asked to `set` from the byte string `02` (wrong leading
tag): the call raises, but the array's values afterwards are `[]`, not the
prior `[[0x01]]` — `Array.set` runs `self.clear()` before validating. -/
theorem C4_array_set_not_atomic_counterexample :
    (Array.set ⟨[[0x01]]⟩ (ArrayInput.bytes [0x02])).raised = true ∧
    (Array.set ⟨[[0x01]]⟩ (ArrayInput.bytes [0x02])).values = [] ∧
    ([] : List (List Nat)) ≠ [[0x01]] := by
  decide

/-- **C4** — amended: `set` is atomic for simple data types (the
replacement value is fully constructed before any mutation), but
`Array.set` empties the array before constructing the replacement, so a
failed `Array.set` leaves the values empty rather than unchanged. -/
theorem C4_set_atomicity_amended :
    (∀ (ctor : Int → Except Unit (List Nat)) (st : SimpleState) (v : Int),
      (SimpleDataType.set ctor st v).raised = true →
        (SimpleDataType.set ctor st v).state = st) ∧
    (∀ (st : ArrayState) (v : ArrayInput),
      (Array.set st v).raised = true → (Array.set st v).values = []) := by
  constructor
  · intro ctor st v h
    unfold SimpleDataType.set at *
    cases hc : ctor v with
    | error e => simp [hc]
    | ok c => rw [hc] at h; simp at h
  · intro st v h
    unfold Array.set at *
    cases hc : Array.init v with
    | error e => simp [hc]
    | ok c => rw [hc] at h; simp at h

/-- **C4** — witness: a failed simple `set` (value 300 is out of the
`Unsigned` range) leaves the state unchanged, and the failed array `set`
of the counterexample leaves the values empty. -/
theorem C4_set_atomicity_witness :
    (SimpleDataType.set Unsigned.from_int ⟨[0x00], none, none⟩ 300).state =
      ⟨[0x00], none, none⟩ ∧
    (Array.set ⟨[[0x01]]⟩ (ArrayInput.bytes [0x02])).values = [] :=
  ⟨C4_set_atomicity_amended.1 Unsigned.from_int ⟨[0x00], none, none⟩ 300 (by decide),
   C4_set_atomicity_amended.2 ⟨[[0x01]]⟩ (ArrayInput.bytes [0x02]) (by decide)⟩

/-- **C5** — counterexample.  For `n = 0x10000` the minimal big-endian
representation takes `k = 3` bytes, so the claim predicts first byte
`0x80 | 3` followed by `01 00 00`; the source has no 3-byte branch and
emits `0x84 00 01 00 00`. -/
theorem C5_minimal_k_counterexample :
    encode_length 0x10000 = [0x84, 0x00, 0x01, 0x00, 0x00] ∧
    encode_length 0x10000 ≠ 0x83 :: toBytesBE 3 0x10000 := by
  decide

/-- **C5** — amended: for `0x80 <= n < 2^32` the first byte is
`0x80 | k` followed by the `k` big-endian bytes of `n`, where `k` is 1
below 0x100, 2 below 0x10000, and otherwise 4 — not the minimal byte
count (lengths in 0x10000..0xFFFFFF are emitted with `k = 4`, not 3). -/
theorem C5_encode_length_amended :
    ∀ n : Nat, 0x80 ≤ n → n < 0x100000000 →
      encode_length n = (0x80 + emittedLengthBytes n) :: toBytesBE (emittedLengthBytes n) n := by
  intro n h1 h2
  by_cases hA : n < 0x100
  · rw [encode_length, if_neg (by omega), if_pos hA, emittedLengthBytes, if_pos hA]
    show _ = [0x81, n / 256 ^ 0 % 256]
    norm_num
    omega
  · by_cases hB : n < 0x10000
    · rw [encode_length, if_neg (by omega), if_neg hA, if_pos hB,
        emittedLengthBytes, if_neg hA, if_pos hB]
      show _ = [0x82, n / 256 ^ 1 % 256, n / 256 ^ 0 % 256]
      norm_num
      omega
    · rw [encode_length, if_neg (by omega), if_neg hA, if_neg hB, if_pos h2,
        emittedLengthBytes, if_neg hA, if_neg hB]
      show _ = [0x84, n / 256 ^ 3 % 256, n / 256 ^ 2 % 256, n / 256 ^ 1 % 256, n / 256 ^ 0 % 256]
      norm_num
      omega

/-- **C5** — witness: `0x123456` (in the non-minimal band) encodes as
`0x84` + 4 big-endian bytes. -/
theorem C5_encode_length_witness :
    encode_length 0x123456 = [0x84, 0x00, 0x12, 0x34, 0x56] :=
  C5_encode_length_amended 0x123456 (by decide) (by decide)

/-- **C6** — counterexample.  A `Structure` of two `Unsigned` elements
(contents `0x01` and `0x02`) encodes as `02 02 11 01 11 02` — the byte
`02` after the tag is `encode_length(len(values))` — not as the claimed
tag-then-elements `02 11 01 11 02`. -/
theorem C6_structure_count_prefix_counterexample :
    Val.encoding (Val.struct [Val.unsigned [0x01], Val.unsigned [0x02]]) =
      [0x02, 0x02, 0x11, 0x01, 0x11, 0x02] ∧
    Val.encoding (Val.struct [Val.unsigned [0x01], Val.unsigned [0x02]]) ≠
      0x02 :: Val.encodingList [Val.unsigned [0x01], Val.unsigned [0x02]] := by
  decide

/-- **C6** — amended: a `Structure` encodes as the tag `0x02`, then the
element-count header `encode_length(len(values))`, then the concatenation
of the elements' full encodings; decoding the header back yields exactly
the element count and the element data. -/
theorem C6_structure_encoding_amended :
    ∀ vs : List Val, vs.length < 0x100000000 →
      Val.encoding (Val.struct vs) =
        0x02 :: (encode_length vs.length ++ Val.encodingList vs) ∧
      get_length_and_pdu (encode_length vs.length ++ Val.encodingList vs) =
        some (vs.length, Val.encodingList vs) := by
  intro vs h
  exact ⟨rfl, get_length_and_pdu_encode_length vs.length h (Val.encodingList vs)⟩

/-- **C6** — witness at a one-element structure. -/
theorem C6_structure_encoding_witness :
    Val.encoding (Val.struct [Val.unsigned [0x01]]) =
      0x02 :: (encode_length 1 ++ Val.encodingList [Val.unsigned [0x01]]) ∧
    get_length_and_pdu (encode_length 1 ++ Val.encodingList [Val.unsigned [0x01]]) =
      some (1, Val.encodingList [Val.unsigned [0x01]]) :=
  C6_structure_encoding_amended [Val.unsigned [0x01]] (by decide)

/-- **C7**.  Construction is not total-or-fail: `Bcd(None)` completes
without ever assigning `self.contents` (the computed default byte string
is discarded), and `Boolean("2")` completes with `self.contents = None`
(`from_str` falls off its `if`/`elif` chain) — in both cases the caller
observes a constructed value whose contents is not a byte string, with no
error raised. -/
theorem C7_partial_construction_observable :
    Bcd.init none = .ok none ∧
    Boolean.init_str "2" = .ok none := by
  decide

/-- **C9**.  Boolean wire normalization: decoding `03 00` yields the false
value with contents `00`, and for every nonzero payload byte `b`,
decoding `03 b` yields contents `01`, whose re-encoding is exactly
`03 01` — decode is not injective on the wire, encode is canonical. -/
theorem C9_boolean_normalization :
    Boolean.from_bytes [0x03, 0x00] = .ok [0x00] ∧
    Boolean.toBool [0x00] = false ∧
    ∀ b : Nat, b ≠ 0 → b ≤ 0xFF →
      Boolean.from_bytes [0x03, b] = .ok [0x01] ∧
      Boolean.encoding [0x01] = [0x03, 0x01] := by
  refine ⟨by decide, by decide, ?_⟩
  intro b hb _
  refine ⟨?_, rfl⟩
  simp [Boolean.from_bytes, Boolean.from_int, hb]

/-- **C9** — witness at the nonzero payload byte `0x55`. -/
theorem C9_boolean_normalization_witness :
    Boolean.from_bytes [0x03, 0x55] = .ok [0x01] ∧
    Boolean.encoding [0x01] = [0x03, 0x01] :=
  C9_boolean_normalization.2.2 0x55 (by decide) (by decide)

/-- **C10**.  `get_length_and_pdu` raises exactly on the empty input; for a
long-form first byte `0x80 + k` followed by fewer than `k` bytes it does
not report an error but returns the big-endian integer of the header
bytes actually present, with an empty remainder. -/
theorem C10_get_length_and_pdu_truncation :
    (∀ l : List Nat, get_length_and_pdu l = none ↔ l = []) ∧
    (∀ (b : Nat) (rest : List Nat), 0x80 ≤ b → rest.length < b - 0x80 →
      get_length_and_pdu (b :: rest) = some (fromBytesBE rest, [])) := by
  constructor
  · intro l
    cases l with
    | nil => simp [get_length_and_pdu]
    | cons b rest =>
      simp only [get_length_and_pdu]
      constructor
      · intro hc
        by_cases hb : 0x80 ≤ b
        · rw [if_pos hb] at hc; cases hc
        · rw [if_neg hb] at hc; cases hc
      · intro hc
        cases hc
  · intro b rest hb hlen
    simp only [get_length_and_pdu, if_pos hb]
    rw [List.take_of_length_le (le_of_lt hlen), List.drop_eq_nil_of_le (le_of_lt hlen)]

/-- **C10** — witness: first byte `0x83` announces 3 length bytes but only
`01 02` follow; the result is `0x0102` with empty remainder. -/
theorem C10_truncation_witness :
    get_length_and_pdu [0x83, 0x01, 0x02] = some (0x0102, []) :=
  C10_get_length_and_pdu_truncation.2 0x83 [0x01, 0x02] (by decide) (by decide)

/-- **C8** — counterexample.  Register a post-set callback, run a first
successful `set` (which fires it), then a second `set` on the resulting
state: the second call's events still include the post-set callback — the
callback was not removed/consumed after firing, contrary to the claim. -/
theorem C8_callback_not_consumed_counterexample :
    (SimpleDataType.set Unsigned.from_int
      (SimpleDataType.set Unsigned.from_int
        (register_cb_post_set ⟨[0x00], none, none⟩ 7) 1).state 2).events =
      [Ev.mutate, Ev.postSet] := by
  decide

/-- **C8** — amended: on a successful `set` the events are strictly
pre-callback, then mutation, then post-callback, each at most once per
call; but the callbacks are retained in the state, not consumed, so they
fire again on every subsequent `set`. -/
theorem C8_callback_order_amended :
    ∀ (ctor : Int → Except Unit (List Nat)) (st : SimpleState) (v : Int),
      ((SimpleDataType.set ctor st v).raised = false →
        (SimpleDataType.set ctor st v).events =
          (if st.cb_preset.isSome then [Ev.preset] else []) ++ [Ev.mutate] ++
            (if st.cb_post_set.isSome then [Ev.postSet] else [])) ∧
      (SimpleDataType.set ctor st v).state.cb_preset = st.cb_preset ∧
      (SimpleDataType.set ctor st v).state.cb_post_set = st.cb_post_set := by
  intro ctor st v
  unfold SimpleDataType.set
  cases hc : ctor v <;> simp

/-- **C8** — witness: with both callbacks registered, a successful `set`
fires preset, mutate, post-set in order and keeps both callbacks. -/
theorem C8_callback_order_witness :
    (SimpleDataType.set Unsigned.from_int ⟨[0x00], some 3, some 7⟩ 1).events =
      [Ev.preset, Ev.mutate, Ev.postSet] ∧
    (SimpleDataType.set Unsigned.from_int ⟨[0x00], some 3, some 7⟩ 1).state.cb_preset = some 3 ∧
    (SimpleDataType.set Unsigned.from_int ⟨[0x00], some 3, some 7⟩ 1).state.cb_post_set = some 7 :=
  ⟨(C8_callback_order_amended Unsigned.from_int ⟨[0x00], some 3, some 7⟩ 1).1 (by decide),
   (C8_callback_order_amended Unsigned.from_int ⟨[0x00], some 3, some 7⟩ 1).2.1,
   (C8_callback_order_amended Unsigned.from_int ⟨[0x00], some 3, some 7⟩ 1).2.2⟩

/-- **C1** — counterexample.  The claim says `get_right_nearest_datetime`
returns 2021-05-10T10:00:00Z without raising; in fact the call raises
`ValueError`: the weekday guard `self.weekday is not None` is always true,
so the wildcard weekday byte `0xFF` (never equal to `res.weekday() + 1`)
rejects every candidate day of May 2021, and the loop then evaluates
`res.replace(month=6)` while `res.day == 31`, which raises. -/
theorem C1_right_raises_counterexample :
    CDTDateTime.get_right_nearest_datetime dtHourTen pointMay10 ≠
      .ok (some ⟨2021, 5, 10, 10, 0, 0, 0, 0⟩) := by
  decide

/-- **C1** — amended: on this input `get_right_nearest_datetime` raises
`ValueError`, and `get_left_nearest_datetime` returns
2021-05-09T10:00:59.990000Z — hour and minute match the specified fields,
while the wildcard second and hundredths take the largest candidates not
after the reference point (the search runs them downward from 59 and
990000). -/
theorem C1_nearest_datetime_amended :
    CDTDateTime.get_right_nearest_datetime dtHourTen pointMay10 = .error () ∧
    CDTDateTime.get_left_nearest_datetime dtHourTen pointMay10 =
      .ok (some ⟨2021, 5, 9, 10, 0, 59, 990000, 0⟩) := by
  constructor
  · rfl
  · rfl

end DlmsSpodes
